import Mathlib

/-!
# StudyMate backend: request handlers of `app.js`

A shallow embedding of the Express application in `app.js` (and of the request
bodies built by `Login.js` and `Registration.js`), followed by theorems about
the authentication gate, the credential routes and the question routes.

Conventions of the embedding.

* A handler is a function of the request, the persistent world (the two
  collections, the `uploads/` directory and a trace of the outward calls made
  so far) and, for middleware, the continuation `next`.
* Library functions of `joi`, `jsonwebtoken`, `bcrypt` whose algorithms are not
  part of the repository are fields of `Lib`.  What the surroundings answer to
  one request (database faults, the answer of the generative model, the clock,
  the fresh document id) is a field of `Env`.
* A request is one that the global middleware of lines 30-41 (CORS, JSON
  parsing, the two sanitizers and the rate limiter) has let through to its
  route, and `req.body` is the body as that middleware leaves it.
* Requests are handled one at a time.
-/

namespace StudyMate

/-! ## JavaScript data -/

/-- JSON value held by `req.body`. -/
inductive JsValue where
  | null
  | bool (b : Bool)
  | num (n : Int)
  | str (s : String)
  | arr (items : List JsValue)
  | obj (fields : List (String × JsValue))

/-- JavaScript `Error` object: its `name` and its `message`. -/
structure JsError where
  name : String
  message : String
  deriving DecidableEq, Repr

/-- Value of `new Error(message)`. -/
def newError (message : String) : JsError := ⟨"Error", message⟩

/-- Property read `value[key]` on a JSON value; `none` stands for `undefined`. -/
def JsValue.get : JsValue → String → Option JsValue
  | .obj fields, key => fields.lookup key
  | _, _ => none

/-- Property read that yields the string held under `key`, if it is a string. -/
def JsValue.getString (v : JsValue) (key : String) : Option String :=
  match v.get key with
  | some (.str s) => some s
  | _ => none

/-- Length of a JavaScript string: the number of UTF-16 code units. -/
def jsLength (s : String) : Nat :=
  (s.toList.map fun c => if c.toNat < 65536 then 1 else 2).sum

/-- Splitting of a character list at every occurrence of `sep`. -/
def splitChars (sep : Char) : List Char → List (List Char)
  | [] => [[]]
  | c :: cs =>
    if c = sep then [] :: splitChars sep cs
    else
      match splitChars sep cs with
      | [] => [[c]]
      | w :: ws => (c :: w) :: ws

/-- JavaScript `s.split(sep)` for a one-character separator. -/
def jsSplit (s : String) (sep : Char) : List String :=
  (splitChars sep s.toList).map String.mk

/-- JavaScript `s.startsWith(p)`. -/
def jsStartsWith (s p : String) : Bool :=
  p.toList.isPrefixOf s.toList

/-! ## HTTP responses -/

/-- Body of a response: plain text or a flat JSON object of strings. -/
inductive ResBody where
  | text (s : String)
  | json (fields : List (String × String))
  deriving DecidableEq, Repr

/-- Response sent to the client. -/
structure Response where
  status : Nat
  headers : List (String × String)
  body : ResBody
  deriving DecidableEq, Repr

/-- Express `res.sendStatus(code)`: the status with its reason phrase as body. -/
def sendStatus (code : Nat) : Response :=
  ⟨code, [],
    .text (if code = 401 then "Unauthorized" else if code = 403 then "Forbidden" else toString code)⟩

/-- Express `res.status(code).send(text)`. -/
def sendText (code : Nat) (text : String) : Response := ⟨code, [], .text text⟩

/-- Express `res.status(code).json(fields)`. -/
def sendJson (code : Nat) (fields : List (String × String)) : Response := ⟨code, [], .json fields⟩

/-! ## Joi schemas (lines 87-100) -/

/-- Schema `joi.string()` with the rules used in `app.js`. -/
structure StringSchema where
  min : Option Nat
  email : Bool
  required : Bool

/-- Schema `joi.object(keys)`, the keys in declaration order. -/
structure ObjectSchema where
  keys : List (String × StringSchema)

/-- Validation error of Joi, by error code and label. -/
inductive JoiError where
  | objectBase
  | objectUnknown (key : String)
  | anyRequired (key : String)
  | stringBase (key : String)
  | stringEmpty (key : String)
  | stringMin (key : String) (limit : Nat)
  | stringEmail (key : String)
  deriving DecidableEq, Repr

/-- Text of `error.details[0].message`. -/
def JoiError.message : JoiError → String
  | .objectBase => "\"value\" must be of type object"
  | .objectUnknown k => "\"" ++ k ++ "\" is not allowed"
  | .anyRequired k => "\"" ++ k ++ "\" is required"
  | .stringBase k => "\"" ++ k ++ "\" must be a string"
  | .stringEmpty k => "\"" ++ k ++ "\" is not allowed to be empty"
  | .stringMin k n => "\"" ++ k ++ "\" length must be at least " ++ toString n ++ " characters long"
  | .stringEmail k => "\"" ++ k ++ "\" must be a valid email"

/-- Validation of one key against a string schema.  `isEmail` is the address
check behind `.email()`.  None of the schemas below uses `min(0)`, the one
limit under which Joi admits the empty string. -/
def StringSchema.validate (isEmail : String → Bool) (key : String) (s : StringSchema) :
    Option JsValue → Option JoiError
  | none => if s.required then some (.anyRequired key) else none
  | some (.str v) =>
    if v = "" then some (.stringEmpty key)
    else
      match s.min with
      | some n =>
        if jsLength v < n then some (.stringMin key n)
        else if s.email && !isEmail v then some (.stringEmail key)
        else none
      | none => if s.email && !isEmail v then some (.stringEmail key) else none
  | some _ => some (.stringBase key)

/-- First error among the declared keys, in declaration order. -/
def validateKeys (isEmail : String → Bool) :
    List (String × StringSchema) → List (String × JsValue) → Option JoiError
  | [], _ => none
  | (k, s) :: rest, fields =>
    match s.validate isEmail k (fields.lookup k) with
    | some e => some e
    | none => validateKeys isEmail rest fields

/-- First key of the value that the schema does not declare. -/
def unknownKey (keys : List (String × StringSchema)) (fields : List (String × JsValue)) :
    Option String :=
  (fields.map Prod.fst).find? fun k => !(keys.map Prod.fst).contains k

/-- Result `error` of `schema.validate(value)` under the default options
(first error only, unknown keys refused): `none` when the value is valid. -/
def ObjectSchema.validate (isEmail : String → Bool) (schema : ObjectSchema) :
    JsValue → Option JoiError
  | .obj fields =>
    match validateKeys isEmail schema.keys fields with
    | some e => some e
    | none =>
      match unknownKey schema.keys fields with
      | some k => some (.objectUnknown k)
      | none => none
  | _ => some .objectBase

/-- Schema of line 87. -/
def registerValidationSchema : ObjectSchema :=
  ⟨[("username", ⟨some 3, false, true⟩),
    ("email", ⟨none, true, true⟩),
    ("password", ⟨some 6, false, true⟩)]⟩

/-- Schema of line 93. -/
def loginValidationSchema : ObjectSchema :=
  ⟨[("email", ⟨none, true, true⟩), ("password", ⟨none, false, true⟩)]⟩

/-- Schema of line 98. -/
def questionValidationSchema : ObjectSchema :=
  ⟨[("question", ⟨none, false, true⟩)]⟩

/-! ## Libraries, surroundings and persistent state -/

/-- Identifier of a stored document. -/
abbrev ObjectId := Nat

/-- Contents of a file. -/
abbrev Bytes := List Nat

/-- Payload carried by a session token: the user id and the time of issue. -/
structure JwtPayload where
  _id : ObjectId
  iat : Nat
  deriving DecidableEq, Repr

/-- Deterministic library functions and the configured signing secret. -/
structure Lib where
  /-- Value of `process.env.JWT_SECRET`. -/
  JWT_SECRET : String
  /-- Address check of `joi.string().email()`. -/
  isEmail : String → Bool
  /-- Token `jwt.sign(payload, secret)` for the payload with this id, issued at this time. -/
  jwtSign : ObjectId → Nat → String → String
  /-- Outcome of `jwt.verify(token, secret)`: `none` when it reports an error. -/
  jwtVerify : String → String → Option JwtPayload
  /-- Hash `bcrypt.hash(password, rounds)` under the given salt. -/
  bcryptHash : String → Nat → String → String
  /-- Result of `bcrypt.compare(password, hash)`. -/
  bcryptCompare : String → String → Bool
  /-- Text of `buffer.toString('base64')`. -/
  base64 : Bytes → String

/-- Content passed to `model.generateContent`. -/
inductive Prompt where
  | text (question : String)
  | withImage (question : String) (data : String) (mimeType : String)
  deriving DecidableEq, Repr

/-- Awaited operations on the database and the file system that may throw. -/
inductive Op where
  | findUser
  | saveUser
  | saveQuestion
  | writeUpload
  | readFile
  deriving DecidableEq, Repr

/-- What the surroundings answer during one request. -/
structure Env where
  /-- Value of `Date.now()`. -/
  now : Nat
  /-- Id given to a document created during the request. -/
  freshId : ObjectId
  /-- Salt drawn by `bcrypt.hash`. -/
  salt : String
  /-- Error thrown by an awaited operation, if it fails. -/
  fault : Op → Option JsError
  /-- Text of the answer of the named generative model to a prompt (the calls
  `generateContent`, `result.response` and `response.text()` together), or the
  error thrown on the way. -/
  generateContent : String → Prompt → Except JsError String

/-- Document of the `users` collection (line 70). -/
structure User where
  _id : ObjectId
  username : String
  email : String
  password : String
  deriving DecidableEq, Repr

/-- Document of the `questions` collection (line 76). -/
structure Question where
  _id : ObjectId
  userId : ObjectId
  question : String
  answer : String
  createdAt : Nat
  deriving DecidableEq, Repr

/-- Outward call recorded in the trace. -/
inductive Event where
  | jwtVerify (token : String)
  | generateContent (model : String) (prompt : Prompt)
  | jwtSign (id : ObjectId)
  | consoleError (err : JsError)
  deriving DecidableEq, Repr

/-- Persistent state and the trace of outward calls, oldest first. -/
structure World where
  users : List User
  questions : List Question
  uploads : List (String × Bytes)
  trace : List Event
  deriving DecidableEq, Repr

/-- Appends an event to the trace. -/
def World.log (w : World) (e : Event) : World :=
  { w with trace := w.trace ++ [e] }

/-- File part of a multipart request. -/
structure UploadFile where
  originalname : String
  mimetype : String
  content : Bytes
  deriving DecidableEq, Repr

/-- Value of `req.file` set by multer. -/
structure StoredFile where
  path : String
  mimetype : String
  size : Nat
  deriving DecidableEq, Repr

/-- Request as seen by the route: the `authorization` header, the body, the
file part in field `image` (if the request is multipart and has one), and the
properties `user` and `file` that middleware attaches. -/
structure Request where
  authorization : Option String
  body : JsValue
  image : Option UploadFile
  user : Option JwtPayload
  file : Option StoredFile

/-- End of the handling of a request: the response sent (if any) and the world. -/
structure Outcome where
  res : Option Response
  world : World
  deriving DecidableEq, Repr

/-! ## Authentication middleware (lines 103-114) -/

/-- Value of `authHeader && authHeader.split(' ')[1]`; `none` stands for
`undefined`.  An empty header is falsy, so the conjunction yields the empty
string itself. -/
def headerToken : Option String → Option String
  | none => none
  | some authHeader =>
    if authHeader = "" then some authHeader
    else (jsSplit authHeader ' ')[1]?

/-- Middleware `authenticateToken`. -/
def authenticateToken (lib : Lib) (req : Request) (w : World)
    (next : Request → World → Outcome) : Outcome :=
  let authHeader := req.authorization
  let token := headerToken authHeader
  match token with
  | none => ⟨some (sendStatus 401), w⟩
  | some token =>
    let w := w.log (.jwtVerify token)
    match lib.jwtVerify token lib.JWT_SECRET with
    | none => ⟨some (sendStatus 403), w⟩
    | some user => next { req with user := some user } w

/-! ## Credential routes (lines 117-157) -/

/-- Catch block of the register route (lines 132-135). -/
def registerCatch (error : JsError) (w : World) : Outcome :=
  ⟨some (sendText 500 "An error occurred during registration"), w.log (.consoleError error)⟩

/-- Error raised when a property of the body is not the string the schema promised.
Validation excludes it (see `getString_of_validateKeys`). -/
def typeError : JsError := ⟨"TypeError", "value is not a string"⟩

/-- Query `User.findOne(email)`: the first stored user with this email. -/
def findOneUser (users : List User) (email : String) : Option User :=
  users.find? fun u => u.email == email

/-- Handler of `POST /api/register`. -/
def postRegister (lib : Lib) (env : Env) (req : Request) (w : World) : Outcome :=
  match registerValidationSchema.validate lib.isEmail req.body with
  | some error => ⟨some (sendText 400 error.message), w⟩
  | none =>
    match req.body.getString "username", req.body.getString "email",
        req.body.getString "password" with
    | some username, some email, some password =>
      match env.fault .findUser with
      | some e => registerCatch e w
      | none =>
        match findOneUser w.users email with
        | some _ => ⟨some (sendText 400 "User already registered"), w⟩
        | none =>
          let hashedPassword := lib.bcryptHash password 10 env.salt
          let user : User := ⟨env.freshId, username, email, hashedPassword⟩
          match env.fault .saveUser with
          | some e => registerCatch e w
          | none =>
            ⟨some (sendText 201 "User registered successfully"),
              { w with users := w.users ++ [user] }⟩
    | _, _, _ => registerCatch typeError w

/-- Catch block of the login route (lines 153-156). -/
def loginCatch (error : JsError) (w : World) : Outcome :=
  ⟨some (sendText 500 "An error occurred during login"), w.log (.consoleError error)⟩

/-- Handler of `POST /api/login`. -/
def postLogin (lib : Lib) (env : Env) (req : Request) (w : World) : Outcome :=
  match loginValidationSchema.validate lib.isEmail req.body with
  | some error => ⟨some (sendText 400 error.message), w⟩
  | none =>
    match req.body.getString "email", req.body.getString "password" with
    | some email, some password =>
      match env.fault .findUser with
      | some e => loginCatch e w
      | none =>
        match findOneUser w.users email with
        | none => ⟨some (sendText 400 "Invalid email or password"), w⟩
        | some user =>
          let validPassword := lib.bcryptCompare password user.password
          if !validPassword then ⟨some (sendText 400 "Invalid email or password"), w⟩
          else
            let token := lib.jwtSign user._id (env.now / 1000) lib.JWT_SECRET
            ⟨some ⟨200, [("auth-token", token)], .json [("token", token)]⟩,
              w.log (.jwtSign user._id)⟩
    | _, _ => loginCatch typeError w

/-! ## Question routes (lines 159-225) -/

/-- Catch block shared by both question routes (lines 179-182 and 221-224). -/
def questionCatch (error : JsError) (w : World) : Outcome :=
  ⟨some (sendJson 500 [("error", "An error occurred while processing your request.")]),
    w.log (.consoleError error)⟩

/-- Error raised by reading `req.user._id` when `req.user` is undefined. -/
def noUserError : JsError := ⟨"TypeError", "Cannot read properties of undefined"⟩

/-- Creation and saving of the Question Record followed by `res.json` (lines 171-178). -/
def saveAndAnswer (env : Env) (req : Request) (question answer : String) (w : World) : Outcome :=
  match req.user with
  | none => questionCatch noUserError w
  | some user =>
    let newQuestion : Question := ⟨env.freshId, user._id, question, answer, env.now⟩
    match env.fault .saveQuestion with
    | some e => questionCatch e w
    | none =>
      ⟨some (sendJson 200 [("answer", answer)]),
        { w with questions := w.questions ++ [newQuestion] }⟩

/-- Handler of `POST /api/question`. -/
def postQuestion (lib : Lib) (env : Env) (req : Request) (w : World) : Outcome :=
  match questionValidationSchema.validate lib.isEmail req.body with
  | some error => ⟨some (sendText 400 error.message), w⟩
  | none =>
    match req.body.getString "question" with
    | none => questionCatch typeError w
    | some question =>
      let w := w.log (.generateContent "gemini-pro" (.text question))
      match env.generateContent "gemini-pro" (.text question) with
      | .error e => questionCatch e w
      | .ok answer => saveAndAnswer env req question answer w

/-- Filter of line 53: the error passed to the callback, or the acceptance flag. -/
def fileFilter (file : UploadFile) : Except JsError Bool :=
  if !jsStartsWith file.mimetype "image/" then .error (newError "Please upload an image file")
  else .ok true

/-- Size ceiling of line 62. -/
def fileSizeLimit : Nat := 5 * 1024 * 1024

/-- Writing of a file: an existing file of the same path is replaced. -/
def writeFile (uploads : List (String × Bytes)) (path : String) (content : Bytes) :
    List (String × Bytes) :=
  uploads.filter (fun f => f.1 != path) ++ [(path, content)]

/-- Middleware `upload.single('image')` with the storage, limit and filter of
lines 44-64.  `nextErr` is what Express does on `next(err)`. -/
def uploadSingleImage (env : Env) (req : Request) (w : World)
    (next : Request → World → Outcome) (nextErr : JsError → World → Outcome) : Outcome :=
  match req.image with
  | none => next req w
  | some file =>
    match fileFilter file with
    | .error err => nextErr err w
    | .ok false => next req w
    | .ok true =>
      if file.content.length > fileSizeLimit then nextErr ⟨"MulterError", "File too large"⟩ w
      else
        match env.fault .writeUpload with
        | some err => nextErr err w
        | none =>
          let path := "uploads/" ++ toString env.now ++ "-" ++ file.originalname
          next { req with file := some ⟨path, file.mimetype, file.content.length⟩ }
            { w with uploads := writeFile w.uploads path file.content }

/-- Call `fs.readFile(path)`. -/
def readFile (env : Env) (w : World) (path : String) : Except JsError Bytes :=
  match env.fault .readFile with
  | some e => .error e
  | none =>
    match w.uploads.lookup path with
    | some data => .ok data
    | none => .error ⟨"Error", "ENOENT: no such file or directory"⟩

/-- Handler of `POST /api/image-question`. -/
def postImageQuestion (lib : Lib) (env : Env) (req : Request) (w : World) : Outcome :=
  match questionValidationSchema.validate lib.isEmail req.body with
  | some error => ⟨some (sendText 400 error.message), w⟩
  | none =>
    match req.body.getString "question" with
    | none => questionCatch typeError w
    | some question =>
      match req.file with
      | none => ⟨some (sendText 400 "No image uploaded"), w⟩
      | some file =>
        let imagePath := file.path
        match readFile env w imagePath with
        | .error e => questionCatch e w
        | .ok imageData =>
          let imageBase64 := lib.base64 imageData
          let prompt := Prompt.withImage question imageBase64 "image/jpeg"
          let w := w.log (.generateContent "gemini-pro-vision" prompt)
          match env.generateContent "gemini-pro-vision" prompt with
          | .error e => questionCatch e w
          | .ok answer => saveAndAnswer env req question answer w

/-- Error-handling middleware of lines 228-240. -/
def errorMiddleware (err : JsError) (w : World) : Outcome :=
  let w := w.log (.consoleError err)
  if err.name = "ValidationError" then ⟨some (sendJson 400 [("error", err.message)]), w⟩
  else if err.name = "UnauthorizedError" then ⟨some (sendJson 401 [("error", "Invalid token")]), w⟩
  else ⟨some (sendJson 500 [("error", "Internal server error")]), w⟩

/-- Route `app.post('/api/question', authenticateToken, handler)`. -/
def routeQuestion (lib : Lib) (env : Env) (req : Request) (w : World) : Outcome :=
  authenticateToken lib req w fun req w => postQuestion lib env req w

/-- Route `app.post('/api/image-question', authenticateToken, upload.single('image'), handler)`. -/
def routeImageQuestion (lib : Lib) (env : Env) (req : Request) (w : World) : Outcome :=
  authenticateToken lib req w fun req w =>
    uploadSingleImage env req w (fun req w => postImageQuestion lib env req w) errorMiddleware

/-- Register calls made one after the other, each with its own surroundings. -/
def registerAll (lib : Lib) : List (Env × Request) → World → World
  | [], w => w
  | (env, req) :: rest, w => registerAll lib rest (postRegister lib env req w).world

/-- Emails of the stored users are pairwise distinct. -/
def UniqueEmails (users : List User) : Prop :=
  (users.map fun u => u.email).Nodup

instance (users : List User) : Decidable (UniqueEmails users) := by
  unfold UniqueEmails
  infer_instance

/-- Calls of the generative model recorded in a trace. -/
def modelCalls (trace : List Event) : List Event :=
  trace.filter fun e => match e with
    | .generateContent _ _ => true
    | _ => false

/-- Calls of the token verifier recorded in a trace. -/
def verifyCalls (trace : List Event) : List Event :=
  trace.filter fun e => match e with
    | .jwtVerify _ => true
    | _ => false

/-! ## Requests built by the frontend -/

/-- Request without credentials, file or attached properties. -/
def plainRequest (body : JsValue) : Request := ⟨none, body, none, none, none⟩

/-- Body posted by `handleLogin` of `Login.js`: `loginUser(username, password)`. -/
def loginRequestBody (username password : String) : JsValue :=
  .obj [("username", .str username), ("password", .str password)]

/-- Body posted by `handleRegister` of `Registration.js`. -/
def registrationRequestBody (username password : String) : JsValue :=
  .obj [("username", .str username), ("password", .str password)]

/-- Header value built by `askQuestion` of `api.js`. -/
def bearer (token : String) : String := "Bearer " ++ token

/-! ## Sample values -/

/-- Sample libraries: a token is the letter `t` followed by as many `x` as the id. -/
def demoLib : Lib where
  JWT_SECRET := "secret"
  isEmail := fun s => s.toList.contains '@'
  jwtSign := fun id _ _ => String.mk ('t' :: List.replicate id 'x')
  jwtVerify := fun token _ =>
    match token.toList with
    | c :: rest => if c = 't' ∧ rest.all (fun d => d == 'x') then some ⟨rest.length, 0⟩ else none
    | [] => none
  bcryptHash := fun password _ salt => salt ++ "$" ++ password
  bcryptCompare := fun password hash => (jsSplit hash '$')[1]? == some password
  base64 := fun data => String.mk (data.map fun n => Char.ofNat (97 + n % 26))

/-- Sample surroundings in which every operation succeeds. -/
def demoEnv : Env where
  now := 5000
  freshId := 2
  salt := "s"
  fault := fun _ => none
  generateContent := fun _ _ => .ok "4"

/-- Sample surroundings in which the generative model is unreachable. -/
def demoEnvDown : Env where
  now := 5000
  freshId := 2
  salt := "s"
  fault := fun _ => none
  generateContent := fun _ _ => .error ⟨"Error", "fetch failed"⟩

/-- Sample stored user. -/
def alice : User := ⟨1, "alice", "a@x.com", "s$secret1"⟩

/-- Sample world with one user and nothing else. -/
def demoWorld : World := ⟨[alice], [], [], []⟩

/-- Continuation that ends the request without a response. -/
def idleNext : Request → World → Outcome := fun _ w => ⟨none, w⟩

/-! ## Splitting of the header -/

theorem splitChars_of_not_mem (sep : Char) (w : List Char) (h : sep ∉ w) :
    splitChars sep w = [w] := by
  induction w with
  | nil => rfl
  | cons c cs ih =>
    simp only [List.mem_cons, not_or] at h
    have hc : c ≠ sep := fun e => h.1 e.symm
    simp [splitChars, hc, ih h.2]

theorem splitChars_append_sep (sep : Char) (w rest : List Char) (h : sep ∉ w) :
    splitChars sep (w ++ sep :: rest) = w :: splitChars sep rest := by
  induction w with
  | nil => simp [splitChars]
  | cons c cs ih =>
    simp only [List.mem_cons, not_or] at h
    have hc : c ≠ sep := fun e => h.1 e.symm
    simp [splitChars, hc, ih h.2]

theorem jsSplit_empty (sep : Char) : jsSplit "" sep = [""] := rfl

theorem headerToken_of_field (h token : String) (ht : (jsSplit h ' ')[1]? = some token) :
    headerToken (some h) = some token := by
  have hne : h ≠ "" := by
    intro e
    subst e
    simp [jsSplit_empty] at ht
  simp [headerToken, hne, ht]

theorem headerToken_no_space (h : String) (hne : h ≠ "") (hs : ' ' ∉ h.toList) :
    headerToken (some h) = none := by
  have e : splitChars ' ' h.toList = [h.toList] := splitChars_of_not_mem _ _ hs
  simp only [headerToken, hne, if_false, jsSplit, e]
  rfl

theorem headerToken_bearer (token : String) (hs : ' ' ∉ token.toList) :
    headerToken (some (bearer token)) = some token := by
  have h1 : (bearer token).toList = ['B', 'e', 'a', 'r', 'e', 'r'] ++ ' ' :: token.toList := by
    simp [bearer, String.toList]
  have h2 : bearer token ≠ "" := by
    intro e
    rw [e] at h1
    simp at h1
  have h3 : (' ' : Char) ∉ ['B', 'e', 'a', 'r', 'e', 'r'] := by decide
  simp only [headerToken, h2, if_false, jsSplit, h1, splitChars_append_sep _ _ _ h3,
    splitChars_of_not_mem _ _ hs]
  simp

/-! ## Authentication middleware -/

theorem authenticateToken_of_none (lib : Lib) (req : Request) (w : World)
    (next : Request → World → Outcome) (h : headerToken req.authorization = none) :
    authenticateToken lib req w next = ⟨some (sendStatus 401), w⟩ := by
  simp [authenticateToken, h]

theorem authenticateToken_of_reject (lib : Lib) (req : Request) (w : World)
    (next : Request → World → Outcome) (token : String)
    (h : headerToken req.authorization = some token)
    (hv : lib.jwtVerify token lib.JWT_SECRET = none) :
    authenticateToken lib req w next = ⟨some (sendStatus 403), w.log (.jwtVerify token)⟩ := by
  simp [authenticateToken, h, hv]

theorem authenticateToken_of_accept (lib : Lib) (req : Request) (w : World)
    (next : Request → World → Outcome) (token : String) (user : JwtPayload)
    (h : headerToken req.authorization = some token)
    (hv : lib.jwtVerify token lib.JWT_SECRET = some user) :
    authenticateToken lib req w next =
      next { req with user := some user } (w.log (.jwtVerify token)) := by
  simp [authenticateToken, h, hv]

theorem modelCalls_log_verify (w : World) (token : String) :
    modelCalls (w.log (.jwtVerify token)).trace = modelCalls w.trace := by
  simp [modelCalls, World.log, List.filter_append]

/-- C1, counterexample: on an empty `Authorization` header the middleware hands the empty
token to the verifier and answers 403, not 401. -/
theorem authenticateToken_empty_header_reaches_verifier :
    (authenticateToken demoLib ⟨some "", .obj [], none, none, none⟩ demoWorld idleNext).res
        = some ⟨403, [], .text "Forbidden"⟩
    ∧ (authenticateToken demoLib ⟨some "", .obj [], none, none, none⟩ demoWorld idleNext).world.trace
        = [Event.jwtVerify ""] := by
  constructor <;> rfl

/-- C1, amended: when the `Authorization` header is absent, or is a non-empty value without a
space (the scheme word alone), `authenticateToken` answers 401 whatever `next` is and leaves
the world and its trace as they were, so neither the verifier nor `next` is called.  When the
header is empty, or its second space-separated field is empty, the verifier is called with the
empty token, and the answer is 403 if the verifier rejects it. -/
theorem authenticateToken_missing_token (lib : Lib) (req : Request) (w : World)
    (next : Request → World → Outcome) :
    ((req.authorization = none ∨
        ∃ v, req.authorization = some v ∧ v ≠ "" ∧ ' ' ∉ v.toList) →
      authenticateToken lib req w next = ⟨some (sendStatus 401), w⟩
      ∧ (sendStatus 401).status = 401
      ∧ verifyCalls (authenticateToken lib req w next).world.trace = verifyCalls w.trace
      ∧ ∀ other, authenticateToken lib req w other = authenticateToken lib req w next)
    ∧ ((∃ v, req.authorization = some v ∧ (v = "" ∨ (jsSplit v ' ')[1]? = some "")) →
      (lib.jwtVerify "" lib.JWT_SECRET = none →
        authenticateToken lib req w next = ⟨some (sendStatus 403), w.log (.jwtVerify "")⟩)
      ∧ ∀ user, lib.jwtVerify "" lib.JWT_SECRET = some user →
        authenticateToken lib req w next =
          next { req with user := some user } (w.log (.jwtVerify ""))) := by
  constructor
  · intro h
    have hn : headerToken req.authorization = none := by
      rcases h with h | ⟨v, hv, hne, hs⟩
      · rw [h]; rfl
      · rw [hv]; exact headerToken_no_space v hne hs
    have e : ∀ k, authenticateToken lib req w k = ⟨some (sendStatus 401), w⟩ :=
      fun k => authenticateToken_of_none lib req w k hn
    refine ⟨e next, rfl, ?_, fun other => ?_⟩
    · rw [e next]
    · rw [e other, e next]
  · rintro ⟨v, hv, h⟩
    have hn : headerToken req.authorization = some "" := by
      rcases h with h | h
      · rw [hv, h]; rfl
      · rw [hv]; exact headerToken_of_field v "" h
    exact ⟨fun hr => authenticateToken_of_reject lib req w next "" hn hr,
      fun user hu => authenticateToken_of_accept lib req w next "" user hn hu⟩

/-- C1, witness: the header `Bearer` without a token, and the header `Bearer ` with an empty
second field. -/
theorem authenticateToken_missing_token_witness :
    authenticateToken demoLib ⟨some "Bearer", .obj [], none, none, none⟩ demoWorld idleNext
        = ⟨some (sendStatus 401), demoWorld⟩
    ∧ authenticateToken demoLib ⟨some "Bearer ", .obj [], none, none, none⟩ demoWorld idleNext
        = ⟨some (sendStatus 403), demoWorld.log (.jwtVerify "")⟩ :=
  ⟨((authenticateToken_missing_token demoLib ⟨some "Bearer", .obj [], none, none, none⟩
      demoWorld idleNext).1 (Or.inr ⟨"Bearer", rfl, by decide, by decide⟩)).1,
    ((authenticateToken_missing_token demoLib ⟨some "Bearer ", .obj [], none, none, none⟩
      demoWorld idleNext).2 ⟨"Bearer ", rfl, Or.inr (by decide)⟩).1 (by decide)⟩

/-- C2: when the header yields a token (its second space-separated field), the middleware
answers 403 without calling `next` exactly when the verifier rejects the token; when the
verifier accepts it, the outcome is that of one call of `next` on the request with `user`
set to the verified payload, in a world where only the verifier call was recorded. -/
theorem authenticateToken_verifies (lib : Lib) (req : Request) (w : World) (v token : String)
    (hv : req.authorization = some v) (ht : (jsSplit v ' ')[1]? = some token) :
    ((∀ next, authenticateToken lib req w next =
          ⟨some (sendStatus 403), w.log (.jwtVerify token)⟩)
        ↔ lib.jwtVerify token lib.JWT_SECRET = none)
    ∧ (sendStatus 403).status = 403
    ∧ ∀ user, lib.jwtVerify token lib.JWT_SECRET = some user →
        (∀ next, authenticateToken lib req w next =
          next { req with user := some user } (w.log (.jwtVerify token)))
        ∧ ({ req with user := some user } : Request).user = some user := by
  have hn : headerToken req.authorization = some token := by
    rw [hv]; exact headerToken_of_field v token ht
  refine ⟨⟨fun h => ?_, fun h next => authenticateToken_of_reject lib req w next token hn h⟩,
    rfl, fun user hu => ⟨fun next => authenticateToken_of_accept lib req w next token user hn hu,
      rfl⟩⟩
  cases hu : lib.jwtVerify token lib.JWT_SECRET with
  | none => rfl
  | some user =>
    have h1 := h idleNext
    rw [authenticateToken_of_accept lib req w idleNext token user hn hu] at h1
    simp [idleNext] at h1

/-- C2, witness: the token of user 1 is accepted and the payload reaches `next`. -/
theorem authenticateToken_verifies_witness :
    authenticateToken demoLib ⟨some "Bearer tx", .obj [], none, none, none⟩ demoWorld idleNext
      = idleNext ⟨some "Bearer tx", .obj [], none, some ⟨1, 0⟩, none⟩
          (demoWorld.log (.jwtVerify "tx")) :=
  ((authenticateToken_verifies demoLib ⟨some "Bearer tx", .obj [], none, none, none⟩ demoWorld
    "Bearer tx" "tx" rfl (by decide)).2.2 ⟨1, 0⟩ (by decide)).1 idleNext

/-- C3: when the token is missing or the verifier rejects it, both question routes answer 401
or 403 and stop there: the stored questions, the stored users and the uploads are unchanged
and no call of the generative model is added to the trace. -/
theorem routes_reject_without_token (lib : Lib) (env : Env) (req : Request) (w : World)
    (h : headerToken req.authorization = none ∨
      ∃ token, headerToken req.authorization = some token ∧
        lib.jwtVerify token lib.JWT_SECRET = none) :
    ∀ out ∈ [routeQuestion lib env req w, routeImageQuestion lib env req w],
      (out.res = some (sendStatus 401) ∨ out.res = some (sendStatus 403))
      ∧ out.world.questions = w.questions
      ∧ out.world.uploads = w.uploads
      ∧ out.world.users = w.users
      ∧ modelCalls out.world.trace = modelCalls w.trace := by
  have key : ∀ k, (authenticateToken lib req w k = ⟨some (sendStatus 401), w⟩) ∨
      ∃ token, authenticateToken lib req w k = ⟨some (sendStatus 403), w.log (.jwtVerify token)⟩ := by
    intro k
    rcases h with h | ⟨token, h, hr⟩
    · exact Or.inl (authenticateToken_of_none lib req w k h)
    · exact Or.inr ⟨token, authenticateToken_of_reject lib req w k token h hr⟩
  intro out hout
  simp only [List.mem_cons, List.mem_singleton, List.not_mem_nil, or_false] at hout
  have : out = ⟨some (sendStatus 401), w⟩ ∨
      ∃ token, out = ⟨some (sendStatus 403), w.log (.jwtVerify token)⟩ := by
    rcases hout with e | e <;> rw [e] <;> exact key _
  rcases this with e | ⟨token, e⟩
  · subst e; simp
  · subst e; simp [modelCalls, World.log, List.filter_append]

/-- C3, witness: a question posted without any header, on the text route. -/
theorem routes_reject_without_token_witness :
    headerToken (plainRequest (.obj [("question", .str "hi")])).authorization = none
    ∧ ((routeQuestion demoLib demoEnv (plainRequest (.obj [("question", .str "hi")]))
          demoWorld).res = some (sendStatus 401)
        ∨ (routeQuestion demoLib demoEnv (plainRequest (.obj [("question", .str "hi")]))
          demoWorld).res = some (sendStatus 403)) :=
  ⟨rfl, (routes_reject_without_token demoLib demoEnv
    (plainRequest (.obj [("question", .str "hi")])) demoWorld (Or.inl rfl) _
    (List.mem_cons_self _ _)).1⟩

/-! ## Validation -/

theorem StringSchema.validate_eq_none (isEmail : String → Bool) (key : String)
    (s : StringSchema) (v : Option JsValue) (hreq : s.required = true)
    (h : s.validate isEmail key v = none) :
    ∃ x, v = some (.str x) ∧ x ≠ "" := by
  cases v with
  | none => simp [StringSchema.validate, hreq] at h
  | some val =>
    cases val with
    | str x =>
      refine ⟨x, rfl, fun e => ?_⟩
      simp [StringSchema.validate, e] at h
    | null => simp [StringSchema.validate] at h
    | bool b => simp [StringSchema.validate] at h
    | num n => simp [StringSchema.validate] at h
    | arr items => simp [StringSchema.validate] at h
    | obj fields => simp [StringSchema.validate] at h

theorem getString_of_validateKeys (isEmail : String → Bool)
    (keys : List (String × StringSchema)) (fields : List (String × JsValue))
    (h : validateKeys isEmail keys fields = none) (key : String) (s : StringSchema)
    (hk : (key, s) ∈ keys) (hreq : s.required = true) :
    ∃ x, (JsValue.obj fields).getString key = some x ∧ x ≠ "" := by
  induction keys with
  | nil => simp at hk
  | cons head rest ih =>
    obtain ⟨k, sch⟩ := head
    simp only [validateKeys] at h
    split at h
    · simp at h
    · rename_i hval
      rcases List.mem_cons.mp hk with e | hmem
      · cases e
        obtain ⟨x, hx, hne⟩ := StringSchema.validate_eq_none isEmail key s _ hreq hval
        exact ⟨x, by simp [JsValue.getString, JsValue.get, hx], hne⟩
      · exact ih h hmem

theorem getString_of_valid (isEmail : String → Bool) (schema : ObjectSchema) (body : JsValue)
    (h : schema.validate isEmail body = none) (key : String) (s : StringSchema)
    (hk : (key, s) ∈ schema.keys) (hreq : s.required = true) :
    ∃ x, body.getString key = some x ∧ x ≠ "" := by
  cases body with
  | obj fields =>
    simp only [ObjectSchema.validate] at h
    split at h
    · simp at h
    · rename_i hkeys
      exact getString_of_validateKeys isEmail schema.keys fields hkeys key s hk hreq
  | null => simp [ObjectSchema.validate] at h
  | bool b => simp [ObjectSchema.validate] at h
  | num n => simp [ObjectSchema.validate] at h
  | str x => simp [ObjectSchema.validate] at h
  | arr items => simp [ObjectSchema.validate] at h

theorem question_of_valid (isEmail : String → Bool) (body : JsValue)
    (h : questionValidationSchema.validate isEmail body = none) :
    ∃ q, body.getString "question" = some q ∧ q ≠ "" :=
  getString_of_valid isEmail _ body h "question" ⟨none, false, true⟩
    (by simp [questionValidationSchema]) rfl

/-! ## Question routes -/

theorem routeQuestion_of_accept (lib : Lib) (env : Env) (req : Request) (w : World)
    (token : String) (user : JwtPayload)
    (hauth : headerToken req.authorization = some token)
    (hver : lib.jwtVerify token lib.JWT_SECRET = some user) :
    routeQuestion lib env req w =
      postQuestion lib env { req with user := some user } (w.log (.jwtVerify token)) := by
  unfold routeQuestion
  rw [authenticateToken_of_accept lib req w _ token user hauth hver]

theorem routeImageQuestion_of_accept (lib : Lib) (env : Env) (req : Request) (w : World)
    (token : String) (user : JwtPayload)
    (hauth : headerToken req.authorization = some token)
    (hver : lib.jwtVerify token lib.JWT_SECRET = some user) :
    routeImageQuestion lib env req w =
      uploadSingleImage env { req with user := some user } (w.log (.jwtVerify token))
        (fun req w => postImageQuestion lib env req w) errorMiddleware := by
  unfold routeImageQuestion
  rw [authenticateToken_of_accept lib req w _ token user hauth hver]

/-- C6: an authenticated request to `POST /api/question` whose `question` is the empty string
or is not a string at all fails validation; the route answers 400 with the validation message,
and apart from the verifier call nothing happens: no model call is added to the trace and
the stored questions are unchanged. -/
theorem question_empty_rejected (lib : Lib) (env : Env) (req : Request) (w : World)
    (token : String) (user : JwtPayload)
    (hauth : headerToken req.authorization = some token)
    (hver : lib.jwtVerify token lib.JWT_SECRET = some user)
    (hq : ∀ q, req.body.getString "question" = some q → q = "") :
    ∃ error, questionValidationSchema.validate lib.isEmail req.body = some error
      ∧ routeQuestion lib env req w =
          ⟨some (sendText 400 error.message), w.log (.jwtVerify token)⟩
      ∧ (sendText 400 error.message).status = 400
      ∧ modelCalls (routeQuestion lib env req w).world.trace = modelCalls w.trace
      ∧ (routeQuestion lib env req w).world.questions = w.questions := by
  cases hval : questionValidationSchema.validate lib.isEmail req.body with
  | none =>
    obtain ⟨q, hg, hne⟩ := question_of_valid lib.isEmail req.body hval
    exact absurd (hq q hg) hne
  | some error =>
    have e : routeQuestion lib env req w =
        ⟨some (sendText 400 error.message), w.log (.jwtVerify token)⟩ := by
      rw [routeQuestion_of_accept lib env req w token user hauth hver]
      simp [postQuestion, hval]
    refine ⟨error, rfl, e, rfl, ?_, ?_⟩
    · rw [e]; exact modelCalls_log_verify w token
    · rw [e]; rfl

/-- C6, witness: an authenticated request whose question is the empty string. -/
theorem question_empty_rejected_witness :
    ∃ error, questionValidationSchema.validate demoLib.isEmail
        (JsValue.obj [("question", .str "")]) = some error
      ∧ routeQuestion demoLib demoEnv
          ⟨some "Bearer tx", .obj [("question", .str "")], none, none, none⟩ demoWorld =
          ⟨some (sendText 400 error.message), demoWorld.log (.jwtVerify "tx")⟩
      ∧ (sendText 400 error.message).status = 400
      ∧ modelCalls (routeQuestion demoLib demoEnv
          ⟨some "Bearer tx", .obj [("question", .str "")], none, none, none⟩
          demoWorld).world.trace = modelCalls demoWorld.trace
      ∧ (routeQuestion demoLib demoEnv
          ⟨some "Bearer tx", .obj [("question", .str "")], none, none, none⟩
          demoWorld).world.questions = demoWorld.questions :=
  question_empty_rejected demoLib demoEnv
    ⟨some "Bearer tx", .obj [("question", .str "")], none, none, none⟩ demoWorld "tx" ⟨1, 0⟩
    (by decide) (by decide) (by
      intro q hq
      simp [JsValue.getString, JsValue.get, List.lookup] at hq
      exact hq.symm)

/-- C9: an authenticated request to `POST /api/question` that passes validation with question
`q` (so `q` is not empty), for which the model answers `a` and the save succeeds, gets the
response 200 with body `answer: a`; exactly one record is appended to the stored questions,
holding the id of the verified payload, `q` and `a`, and the earlier records stay as they
were. -/
theorem question_answered (lib : Lib) (env : Env) (req : Request) (w : World)
    (token : String) (user : JwtPayload) (q a : String)
    (hauth : headerToken req.authorization = some token)
    (hver : lib.jwtVerify token lib.JWT_SECRET = some user)
    (hvalid : questionValidationSchema.validate lib.isEmail req.body = none)
    (hq : req.body.getString "question" = some q)
    (hgen : env.generateContent "gemini-pro" (.text q) = .ok a)
    (hsave : env.fault .saveQuestion = none) :
    q ≠ ""
    ∧ (routeQuestion lib env req w).res = some ⟨200, [], .json [("answer", a)]⟩
    ∧ (routeQuestion lib env req w).world.questions =
        w.questions ++ [⟨env.freshId, user._id, q, a, env.now⟩]
    ∧ (routeQuestion lib env req w).world.users = w.users
    ∧ (routeQuestion lib env req w).world.trace =
        w.trace ++ [.jwtVerify token, .generateContent "gemini-pro" (.text q)] := by
  obtain ⟨q0, hq0, hne⟩ := question_of_valid lib.isEmail req.body hvalid
  rw [hq] at hq0
  cases hq0
  rw [routeQuestion_of_accept lib env req w token user hauth hver]
  simp [postQuestion, hvalid, hq, hgen, saveAndAnswer, hsave, World.log, sendJson, hne]

/-- C9, witness: user 1 asks `2+2?` and the model answers `4`. -/
theorem question_answered_witness :
    (routeQuestion demoLib demoEnv
        ⟨some "Bearer tx", .obj [("question", .str "2+2?")], none, none, none⟩ demoWorld).res
      = some ⟨200, [], .json [("answer", "4")]⟩
    ∧ (routeQuestion demoLib demoEnv
        ⟨some "Bearer tx", .obj [("question", .str "2+2?")], none, none, none⟩
        demoWorld).world.questions = demoWorld.questions ++ [⟨2, 1, "2+2?", "4", 5000⟩] :=
  have h := question_answered demoLib demoEnv
    ⟨some "Bearer tx", .obj [("question", .str "2+2?")], none, none, none⟩ demoWorld "tx" ⟨1, 0⟩
    "2+2?" "4" (by decide) (by decide) (by decide) (by decide) rfl rfl
  ⟨h.2.1, h.2.2.1⟩

/-! ## Credential routes -/

theorem findOneUser_eq_none (users : List User) (email : String)
    (h : ∀ u ∈ users, u.email ≠ email) : findOneUser users email = none := by
  unfold findOneUser
  rw [List.find?_eq_none]
  intro u hu
  simpa using h u hu

theorem findOneUser_isSome (users : List User) (email : String)
    (h : ∃ u ∈ users, u.email = email) : ∃ found, findOneUser users email = some found := by
  cases hf : findOneUser users email with
  | some found => exact ⟨found, rfl⟩
  | none =>
    unfold findOneUser at hf
    rw [List.find?_eq_none] at hf
    obtain ⟨u, hu, he⟩ := h
    have := hf u hu
    simp [he] at this

theorem not_mem_emails_of_findOneUser (users : List User) (email : String)
    (h : findOneUser users email = none) : email ∉ users.map fun u => u.email := by
  unfold findOneUser at h
  rw [List.find?_eq_none] at h
  intro hmem
  obtain ⟨u, hu, he⟩ := List.mem_map.mp hmem
  have := h u hu
  simp [he] at this

theorem findOneUser_of_unique (users : List User) (user : User)
    (huniq : UniqueEmails users) (hmem : user ∈ users) :
    findOneUser users user.email = some user := by
  induction users with
  | nil => simp at hmem
  | cons x xs ih =>
    unfold UniqueEmails at huniq
    simp only [List.map_cons, List.nodup_cons] at huniq
    rcases List.mem_cons.mp hmem with e | hxs
    · subst e
      simp [findOneUser]
    · have hne : x.email ≠ user.email := by
        intro e
        apply huniq.1
        rw [e]
        exact List.mem_map.mpr ⟨user, hxs, rfl⟩
      have := ih huniq.2 hxs
      unfold findOneUser at this ⊢
      have hb : (x.email == user.email) = false := by simp [hne]
      rw [List.find?_cons, hb]
      exact this

theorem uniqueEmails_append (users : List User) (u : User) (huniq : UniqueEmails users)
    (h : findOneUser users u.email = none) : UniqueEmails (users ++ [u]) := by
  unfold UniqueEmails at huniq ⊢
  rw [List.map_append, List.nodup_append]
  refine ⟨huniq, by simp, ?_⟩
  intro a ha hb
  simp only [List.map_cons, List.map_nil, List.mem_singleton] at hb
  subst hb
  exact not_mem_emails_of_findOneUser users u.email h ha

theorem register_fields_of_valid (isEmail : String → Bool) (body : JsValue)
    (h : registerValidationSchema.validate isEmail body = none) :
    ∃ username email password, body.getString "username" = some username
      ∧ body.getString "email" = some email ∧ body.getString "password" = some password := by
  obtain ⟨u, hu, _⟩ := getString_of_valid isEmail _ body h "username" ⟨some 3, false, true⟩
    (by simp [registerValidationSchema]) rfl
  obtain ⟨e, he, _⟩ := getString_of_valid isEmail _ body h "email" ⟨none, true, true⟩
    (by simp [registerValidationSchema]) rfl
  obtain ⟨p, hp, _⟩ := getString_of_valid isEmail _ body h "password" ⟨some 6, false, true⟩
    (by simp [registerValidationSchema]) rfl
  exact ⟨u, e, p, hu, he, hp⟩

theorem postRegister_users (lib : Lib) (env : Env) (req : Request) (w : World) :
    (postRegister lib env req w).world.users = w.users
    ∨ ∃ u, findOneUser w.users u.email = none
        ∧ (postRegister lib env req w).world.users = w.users ++ [u] := by
  unfold postRegister
  split
  · exact Or.inl rfl
  · split
    · split
      · exact Or.inl rfl
      · split
        · exact Or.inl rfl
        · rename_i hnone
          dsimp only
          split
          · exact Or.inl rfl
          · exact Or.inr ⟨_, hnone, rfl⟩
    · exact Or.inl rfl

theorem postRegister_duplicate (lib : Lib) (env : Env) (req : Request) (w : World)
    (hv : registerValidationSchema.validate lib.isEmail req.body = none)
    (hfind : env.fault .findUser = none)
    (hdup : ∃ u ∈ w.users, req.body.getString "email" = some u.email) :
    postRegister lib env req w = ⟨some (sendText 400 "User already registered"), w⟩ := by
  obtain ⟨username, email, password, hu, he, hp⟩ := register_fields_of_valid lib.isEmail _ hv
  obtain ⟨u, hmem, hue⟩ := hdup
  rw [he] at hue
  cases hue
  obtain ⟨found, hfound⟩ := findOneUser_isSome w.users u.email ⟨u, hmem, rfl⟩
  simp [postRegister, hv, hu, he, hp, hfind, hfound]

theorem postRegister_fresh (lib : Lib) (env : Env) (req : Request) (w : World)
    (hv : registerValidationSchema.validate lib.isEmail req.body = none)
    (hfind : env.fault .findUser = none) (hsave : env.fault .saveUser = none)
    (hnew : ∀ u ∈ w.users, req.body.getString "email" ≠ some u.email) :
    ∃ user, req.body.getString "email" = some user.email
      ∧ postRegister lib env req w =
        ⟨some (sendText 201 "User registered successfully"),
          { w with users := w.users ++ [user] }⟩ := by
  obtain ⟨username, email, password, hu, he, hp⟩ := register_fields_of_valid lib.isEmail _ hv
  have hnone : findOneUser w.users email = none := by
    apply findOneUser_eq_none
    intro u hmem e
    exact hnew u hmem (by rw [he, e])
  exact ⟨⟨env.freshId, username, email, lib.bcryptHash password 10 env.salt⟩, he,
    by simp [postRegister, hv, hu, he, hp, hfind, hnone, hsave]⟩

theorem registerAll_unique (lib : Lib) (calls : List (Env × Request)) (w : World)
    (huniq : UniqueEmails w.users) : UniqueEmails (registerAll lib calls w).users := by
  induction calls generalizing w with
  | nil => exact huniq
  | cons call rest ih =>
    obtain ⟨env, req⟩ := call
    simp only [registerAll]
    apply ih
    rcases postRegister_users lib env req w with e | ⟨u, hnone, e⟩
    · rw [e]; exact huniq
    · rw [e]; exact uniqueEmails_append w.users u huniq hnone

/-- C5: for a registration body that passes validation, (1) if a stored user already has the
email and the lookup returns, the route answers 400 `User already registered` and the world is
unchanged; (2) from a store without that email, with lookup and save working, the first
registration answers 201 and a second registration of the same body answers 400
`User already registered` and changes nothing; (3) a store with pairwise distinct emails
still has pairwise distinct emails after any sequence of register calls, whatever their
bodies and whatever fails on the way. -/
theorem register_duplicate_email (lib : Lib) (req : Request)
    (hv : registerValidationSchema.validate lib.isEmail req.body = none) :
    (∀ env w, env.fault .findUser = none →
        (∃ u ∈ w.users, req.body.getString "email" = some u.email) →
        postRegister lib env req w = ⟨some (sendText 400 "User already registered"), w⟩)
    ∧ (∀ env₁ env₂ w, env₁.fault .findUser = none → env₁.fault .saveUser = none →
        env₂.fault .findUser = none →
        (∀ u ∈ w.users, req.body.getString "email" ≠ some u.email) →
        (postRegister lib env₁ req w).res = some (sendText 201 "User registered successfully")
        ∧ postRegister lib env₂ req (postRegister lib env₁ req w).world =
            ⟨some (sendText 400 "User already registered"),
              (postRegister lib env₁ req w).world⟩)
    ∧ (∀ calls w, UniqueEmails w.users → UniqueEmails (registerAll lib calls w).users) := by
  refine ⟨fun env w hfind hdup => postRegister_duplicate lib env req w hv hfind hdup,
    fun env₁ env₂ w hf₁ hs₁ hf₂ hnew => ?_, fun calls w h => registerAll_unique lib calls w h⟩
  obtain ⟨user, he, e⟩ := postRegister_fresh lib env₁ req w hv hf₁ hs₁ hnew
  rw [e]
  refine ⟨rfl, ?_⟩
  apply postRegister_duplicate lib env₂ req _ hv hf₂
  exact ⟨user, by simp, he⟩

/-- C5, witness: registering `bob` twice in the sample world. -/
theorem register_duplicate_email_witness :
    (postRegister demoLib demoEnv (plainRequest (.obj [("username", .str "bob"),
        ("email", .str "b@x.com"), ("password", .str "secret2")])) demoWorld).res
      = some (sendText 201 "User registered successfully")
    ∧ postRegister demoLib demoEnv (plainRequest (.obj [("username", .str "bob"),
        ("email", .str "b@x.com"), ("password", .str "secret2")]))
        (postRegister demoLib demoEnv (plainRequest (.obj [("username", .str "bob"),
          ("email", .str "b@x.com"), ("password", .str "secret2")])) demoWorld).world
      = ⟨some (sendText 400 "User already registered"),
          (postRegister demoLib demoEnv (plainRequest (.obj [("username", .str "bob"),
            ("email", .str "b@x.com"), ("password", .str "secret2")])) demoWorld).world⟩ :=
  (register_duplicate_email demoLib (plainRequest (.obj [("username", .str "bob"),
      ("email", .str "b@x.com"), ("password", .str "secret2")])) (by decide)).2.1
    demoEnv demoEnv demoWorld rfl rfl rfl (by decide)

/-- C4: with pairwise distinct stored emails, a login request that passes validation, carries
the email of a stored user and a password that `bcrypt.compare` accepts against the stored
hash gets the response 200 whose token is `jwt.sign` of that user id; and, if the token has no
space in it and the verifier returns for it a payload with that id, `authenticateToken` on
`Bearer` followed by the token calls `next` with `req.user` set to that payload. -/
theorem login_token_round_trip (lib : Lib) (env : Env) (req : Request) (w : World)
    (user : User) (password : String) (payload : JwtPayload)
    (huniq : UniqueEmails w.users) (hmem : user ∈ w.users)
    (hvalid : loginValidationSchema.validate lib.isEmail req.body = none)
    (hemail : req.body.getString "email" = some user.email)
    (hpw : req.body.getString "password" = some password)
    (hfind : env.fault .findUser = none)
    (hcmp : lib.bcryptCompare password user.password = true)
    (hfmt : ' ' ∉ (lib.jwtSign user._id (env.now / 1000) lib.JWT_SECRET).toList)
    (hrt : lib.jwtVerify (lib.jwtSign user._id (env.now / 1000) lib.JWT_SECRET) lib.JWT_SECRET
      = some payload)
    (hid : payload._id = user._id) :
    ∃ token, token = lib.jwtSign user._id (env.now / 1000) lib.JWT_SECRET
      ∧ (postLogin lib env req w).res =
          some ⟨200, [("auth-token", token)], .json [("token", token)]⟩
      ∧ (postLogin lib env req w).world.users = w.users
      ∧ ∀ (req2 : Request) (w2 : World) (next : Request → World → Outcome),
          req2.authorization = some (bearer token) →
          authenticateToken lib req2 w2 next =
            next { req2 with user := some payload } (w2.log (.jwtVerify token))
          ∧ ({ req2 with user := some payload } : Request).user.map (fun p => p._id)
              = some user._id := by
  refine ⟨_, rfl, ?_, ?_, ?_⟩
  · have hfound := findOneUser_of_unique w.users user huniq hmem
    simp [postLogin, hvalid, hemail, hpw, hfind, hfound, hcmp]
  · have hfound := findOneUser_of_unique w.users user huniq hmem
    simp [postLogin, hvalid, hemail, hpw, hfind, hfound, hcmp, World.log]
  · intro req2 w2 next hauth
    refine ⟨?_, by simp [hid]⟩
    apply authenticateToken_of_accept lib req2 w2 next _ payload _ hrt
    rw [hauth]
    exact headerToken_bearer _ hfmt

/-- C4, witness: the sample user logs in and presents the token. -/
theorem login_token_round_trip_witness :
    (postLogin demoLib demoEnv
        (plainRequest (.obj [("email", .str "a@x.com"), ("password", .str "secret1")]))
        demoWorld).res = some ⟨200, [("auth-token", "tx")], .json [("token", "tx")]⟩
    ∧ authenticateToken demoLib ⟨some (bearer "tx"), .obj [], none, none, none⟩ demoWorld idleNext
      = idleNext ⟨some (bearer "tx"), .obj [], none, some ⟨1, 0⟩, none⟩
          (demoWorld.log (.jwtVerify "tx")) :=
  match login_token_round_trip demoLib demoEnv
    (plainRequest (.obj [("email", .str "a@x.com"), ("password", .str "secret1")])) demoWorld
    alice "secret1" ⟨1, 0⟩ (by decide) (by decide) (by decide) (by decide) (by decide) rfl
    (by decide) (by decide) (by decide) rfl with
  | ⟨_, ht, h1, _, h2⟩ =>
    ⟨by rw [h1, ht]; rfl,
      by
        subst ht
        exact (h2 ⟨some (bearer "tx"), .obj [], none, none, none⟩ demoWorld idleNext rfl).1⟩

/-- C10: whatever username and password are typed, the body that `Login.js` posts fails
`loginValidationSchema` and the body that `Registration.js` posts fails
`registerValidationSchema`, because neither carries an `email`: both routes answer 400 with
the validation message and leave the world as it was, so no token is signed and no user is
stored. -/
theorem frontend_bodies_rejected (lib : Lib) (env : Env) (req : Request) (w : World)
    (username password : String) :
    postLogin lib env { req with body := loginRequestBody username password } w
        = ⟨some (sendText 400 "\"email\" is required"), w⟩
    ∧ (∃ error, registerValidationSchema.validate lib.isEmail
          (registrationRequestBody username password) = some error
        ∧ postRegister lib env { req with body := registrationRequestBody username password } w
          = ⟨some (sendText 400 error.message), w⟩)
    ∧ (sendText 400 "\"email\" is required").status = 400 := by
  refine ⟨?_, ?_, rfl⟩
  · have hv : loginValidationSchema.validate lib.isEmail (loginRequestBody username password)
        = some (.anyRequired "email") := by
      simp [ObjectSchema.validate, loginValidationSchema, loginRequestBody, validateKeys,
        List.lookup, StringSchema.validate]
    simp [postLogin, hv, JoiError.message]
  · have hv : ∃ error, registerValidationSchema.validate lib.isEmail
        (registrationRequestBody username password) = some error := by
      cases h : registerValidationSchema.validate lib.isEmail
          (registrationRequestBody username password) with
      | some error => exact ⟨error, rfl⟩
      | none =>
        obtain ⟨e, he, _⟩ := getString_of_valid lib.isEmail _ _ h "email" ⟨none, true, true⟩
          (by simp [registerValidationSchema]) rfl
        simp [registrationRequestBody, JsValue.getString, JsValue.get, List.lookup] at he
    obtain ⟨error, hv⟩ := hv
    exact ⟨error, hv, by simp [postRegister, hv]⟩

/-! ## Uploads and failures of the question routes -/

theorem lookup_writeFile (uploads : List (String × Bytes)) (path : String) (content : Bytes) :
    (writeFile uploads path content).lookup path = some content := by
  unfold writeFile
  induction uploads with
  | nil => simp [List.lookup]
  | cons head rest ih =>
    obtain ⟨p, c⟩ := head
    by_cases hp : p = path
    · simp [List.filter_cons, hp]
      simpa using ih
    · have hb : (path == p) = false := by
        simp only [beq_eq_false_iff_ne, ne_eq]
        exact fun e => hp e.symm
      simp [List.filter_cons, hp, List.lookup, hb]
      simpa using ih

theorem routeImageQuestion_non_image (lib : Lib) (env : Env) (req : Request) (w : World)
    (token : String) (user : JwtPayload) (file : UploadFile)
    (hauth : headerToken req.authorization = some token)
    (hver : lib.jwtVerify token lib.JWT_SECRET = some user)
    (himg : req.image = some file)
    (hmime : jsStartsWith file.mimetype "image/" = false) :
    routeImageQuestion lib env req w =
      ⟨some (sendJson 500 [("error", "Internal server error")]),
        (w.log (.jwtVerify token)).log (.consoleError (newError "Please upload an image file"))⟩ := by
  rw [routeImageQuestion_of_accept lib env req w token user hauth hver]
  simp [uploadSingleImage, himg, fileFilter, hmime, errorMiddleware, newError]

theorem routeImageQuestion_missing_image (lib : Lib) (env : Env) (req : Request) (w : World)
    (token : String) (user : JwtPayload)
    (hauth : headerToken req.authorization = some token)
    (hver : lib.jwtVerify token lib.JWT_SECRET = some user)
    (himg : req.image = none) (hfile : req.file = none) :
    ∃ message, routeImageQuestion lib env req w =
      ⟨some (sendText 400 message), w.log (.jwtVerify token)⟩ := by
  rw [routeImageQuestion_of_accept lib env req w token user hauth hver]
  simp only [uploadSingleImage, himg, postImageQuestion]
  split
  · exact ⟨_, rfl⟩
  · rename_i hvalid
    obtain ⟨q, hq, _⟩ := question_of_valid lib.isEmail req.body hvalid
    simp [hq, hfile]

theorem routeImageQuestion_accepted (lib : Lib) (env : Env) (req : Request) (w : World)
    (token : String) (user : JwtPayload) (file : UploadFile)
    (hauth : headerToken req.authorization = some token)
    (hver : lib.jwtVerify token lib.JWT_SECRET = some user)
    (himg : req.image = some file)
    (hmime : jsStartsWith file.mimetype "image/" = true)
    (hsize : file.content.length ≤ fileSizeLimit)
    (hwrite : env.fault .writeUpload = none) :
    routeImageQuestion lib env req w =
      postImageQuestion lib env
        { req with
          user := some user
          file := some ⟨"uploads/" ++ toString env.now ++ "-" ++ file.originalname,
            file.mimetype, file.content.length⟩ }
        { w.log (.jwtVerify token) with
          uploads := writeFile w.uploads
            ("uploads/" ++ toString env.now ++ "-" ++ file.originalname) file.content } := by
  rw [routeImageQuestion_of_accept lib env req w token user hauth hver]
  simp [uploadSingleImage, himg, fileFilter, hmime, Nat.not_lt.mpr hsize, hwrite, World.log]

/-- C7, failing input: an authenticated upload of a `text/plain` file.  The filter rejects it,
multer hands the error to the error-handling middleware, whose name test does not match, and
the response is 500 `Internal server error`; no model call, no record and no upload. -/
theorem imageQuestion_text_file_is_500 :
    routeImageQuestion demoLib demoEnv
        ⟨some "Bearer tx", .obj [("question", .str "what is this?")],
          some ⟨"notes.txt", "text/plain", [104, 105]⟩, none, none⟩ demoWorld
      = ⟨some ⟨500, [], .json [("error", "Internal server error")]⟩,
          ⟨[alice], [], [],
            [.jwtVerify "tx", .consoleError ⟨"Error", "Please upload an image file"⟩]⟩⟩ := by
  rw [routeImageQuestion_non_image demoLib demoEnv _ demoWorld "tx" ⟨1, 0⟩
    ⟨"notes.txt", "text/plain", [104, 105]⟩ (by decide) (by decide) rfl (by decide)]
  rfl

/-- C8: for an authenticated request that passes validation with question `q`, if the model
call or the save fails on the text route, or (on the image route, with an upload that multer
accepted and stored) the reading of the upload, the model call or the save fails, then the
response is 500 with the one fixed body, the same whatever the error was; the stored
questions are unchanged and at most one model call is added to the trace. -/
theorem question_failures_generic (lib : Lib) (env : Env) (req : Request) (w : World)
    (token : String) (user : JwtPayload) (q : String)
    (hauth : headerToken req.authorization = some token)
    (hver : lib.jwtVerify token lib.JWT_SECRET = some user)
    (hvalid : questionValidationSchema.validate lib.isEmail req.body = none)
    (hq : req.body.getString "question" = some q) :
    (((∃ e, env.generateContent "gemini-pro" (.text q) = .error e)
        ∨ (∃ e, env.fault .saveQuestion = some e)) →
      (routeQuestion lib env req w).res =
          some ⟨500, [], .json [("error", "An error occurred while processing your request.")]⟩
      ∧ (routeQuestion lib env req w).world.questions = w.questions
      ∧ modelCalls (routeQuestion lib env req w).world.trace =
          modelCalls w.trace ++ [.generateContent "gemini-pro" (.text q)])
    ∧ (∀ file, req.image = some file → jsStartsWith file.mimetype "image/" = true →
        file.content.length ≤ fileSizeLimit → env.fault .writeUpload = none →
        ((∃ e, env.fault .readFile = some e)
          ∨ (∃ e, env.generateContent "gemini-pro-vision"
                (.withImage q (lib.base64 file.content) "image/jpeg") = .error e)
          ∨ (∃ e, env.fault .saveQuestion = some e)) →
        (routeImageQuestion lib env req w).res =
            some ⟨500, [], .json [("error", "An error occurred while processing your request.")]⟩
        ∧ (routeImageQuestion lib env req w).world.questions = w.questions
        ∧ (modelCalls (routeImageQuestion lib env req w).world.trace).length
            ≤ (modelCalls w.trace).length + 1) := by
  constructor
  · intro hfail
    rw [routeQuestion_of_accept lib env req w token user hauth hver]
    cases hgen : env.generateContent "gemini-pro" (.text q) with
    | error e =>
      simp [postQuestion, hvalid, hq, hgen, questionCatch, World.log, sendJson, modelCalls,
        List.filter_append]
    | ok answer =>
      cases hsave : env.fault .saveQuestion with
      | some e =>
        simp [postQuestion, hvalid, hq, hgen, saveAndAnswer, hsave, questionCatch, World.log,
          sendJson, modelCalls, List.filter_append]
      | none =>
        rcases hfail with ⟨e, he⟩ | ⟨e, he⟩
        · rw [hgen] at he; cases he
        · rw [hsave] at he; cases he
  · intro file himg hmime hsize hwrite hfail
    rw [routeImageQuestion_accepted lib env req w token user file hauth hver himg hmime hsize
      hwrite]
    cases hread : env.fault .readFile with
    | some e =>
      simp [postImageQuestion, hvalid, hq, readFile, hread, questionCatch, World.log, sendJson,
        modelCalls, List.filter_append]
    | none =>
      cases hgen : env.generateContent "gemini-pro-vision"
          (.withImage q (lib.base64 file.content) "image/jpeg") with
      | error e =>
        simp [postImageQuestion, hvalid, hq, readFile, hread, lookup_writeFile, hgen,
          questionCatch, World.log, sendJson, modelCalls, List.filter_append]
      | ok answer =>
        cases hsave : env.fault .saveQuestion with
        | some e =>
          simp [postImageQuestion, hvalid, hq, readFile, hread, lookup_writeFile, hgen,
            saveAndAnswer, hsave, questionCatch, World.log, sendJson, modelCalls,
            List.filter_append]
        | none =>
          rcases hfail with ⟨e, he⟩ | ⟨e, he⟩ | ⟨e, he⟩
          · rw [hread] at he; cases he
          · rw [hgen] at he; cases he
          · rw [hsave] at he; cases he

/-- C8, witness: the model is unreachable while user 1 asks a text question. -/
theorem question_failures_generic_witness :
    (routeQuestion demoLib demoEnvDown
        ⟨some "Bearer tx", .obj [("question", .str "2+2?")], none, none, none⟩ demoWorld).res
      = some ⟨500, [], .json [("error", "An error occurred while processing your request.")]⟩
    ∧ (routeQuestion demoLib demoEnvDown
        ⟨some "Bearer tx", .obj [("question", .str "2+2?")], none, none, none⟩
        demoWorld).world.questions = demoWorld.questions :=
  have h := (question_failures_generic demoLib demoEnvDown
    ⟨some "Bearer tx", .obj [("question", .str "2+2?")], none, none, none⟩ demoWorld "tx" ⟨1, 0⟩
    "2+2?" (by decide) (by decide) (by decide) (by decide)).1
    (Or.inl ⟨⟨"Error", "fetch failed"⟩, rfl⟩)
  ⟨h.1, h.2.1⟩

end StudyMate
